import Mathlib

/-!
Shallow embedding of `src/flatFieldCorrectChunkExposure.cc` (frossie-shadow/ip_isr),
the flat-field-correction sub-stage of the LSST Instrument Signature Removal
pipeline, together with theorems checking the natural-language specification
against it.

Modelling conventions:
* pixel samples are rationals (`ℚ`) — exact arithmetic standing in for the
  double-precision accumulation the source performs;
* image metadata (`lsst::daf::base::DataProperty`) is a list of key/value
  pairs with tagged values; `findUnique` returns the first entry with the key;
* policies (`lsst::pex::policy::Policy`) are key/value maps with typed getters
  that fail (`configNotFound`) when the key is absent or has another type;
* `boost::any_cast<T>` is a tagged-value cast that fails with `badAnyCast`
  when the stored value has a different tag;
* C++ `throw` is an `Outcome.failed` escape; the source's early `return x;`
  statements inside the validation checks (which return an id or a filter name
  where an `Exposure` is expected) are modelled as distinct `Outcome.earlyInt`
  / `Outcome.earlyStr` escapes;
* an `Image` carries a total pixel function `pix : ℕ → ℕ → ℚ`; the image
  proper occupies rows `< rows` and columns `< cols`, and addresses beyond
  that model the ambient memory a pixel accessor walks into when it is
  advanced past the image (needed for the un-reset accessor in the second
  statistics pass, source lines 249-255).
-/

/-- Tagged metadata value, mirroring the `boost::any` payload of a
`DataProperty` (integer, string or floating-point). -/
inductive Value where
  | vInt : Int → Value
  | vStr : String → Value
  | vDbl : ℚ → Value
deriving DecidableEq

/-- Image metadata: an ordered key/value store. -/
abbrev Metadata := List (String × Value)

/-- `DataProperty::findUnique`: the entry with the given key, if any. -/
def findUnique (md : Metadata) (k : String) : Option Value :=
  (md.find? (fun kv => kv.1 = k)).map (fun kv => kv.2)

/-- Error taxonomy.  The source throws `lsst::pex::exceptions` types; the
spec renames them: `Runtime` ↦ `alreadyProcessed`, `LengthError` ↦
`dimensionMismatch`, `RangeError` ↦ `regionMismatch`, `DomainError` ↦
`filterMismatch`, `NotFound` (metadata) ↦ `metadataNotFound`, policy lookup
failure ↦ `configNotFound`.  `badAnyCast` is `boost::bad_any_cast`, thrown
when an `any_cast` meets a value of another type.  (The source has no
`DegenerateFlat`-style failure anywhere.) -/
inductive Err where
  | alreadyProcessed
  | dimensionMismatch
  | regionMismatch
  | filterMismatch
  | metadataNotFound
  | configNotFound
  | badAnyCast
deriving DecidableEq

/-- How one call of the sub-stage ends: normal completion, one of the
source's early `return`s out of a validation check, or a thrown error. -/
inductive Outcome where
  | completed
  | earlyInt : Int → Outcome
  | earlyStr : String → Outcome
  | failed : Err → Outcome
deriving DecidableEq

/-- `boost::any_cast<const int>` on a metadata value. -/
def castInt : Value → Except Err Int
  | .vInt i => .ok i
  | _ => .error .badAnyCast

/-- `boost::any_cast<const std::string>` on a metadata value. -/
def castStr : Value → Except Err String
  | .vStr s => .ok s
  | _ => .error .badAnyCast

/-- Typed policy value (string, double or boolean). -/
inductive PolicyVal where
  | pStr : String → PolicyVal
  | pDbl : ℚ → PolicyVal
  | pBool : Bool → PolicyVal
deriving DecidableEq

/-- A leaf policy section (such as `flatPolicy`): typed key/value entries. -/
structure PolicyLeaf where
  entries : List (String × PolicyVal)
deriving DecidableEq

/-- A top-level policy: its own entries plus named sub-policies. -/
structure Policy where
  entries : List (String × PolicyVal)
  subPolicies : List (String × PolicyLeaf)
deriving DecidableEq

/-- Look up a policy entry by key. -/
def lookupPolicyVal (es : List (String × PolicyVal)) (k : String) :
    Option PolicyVal :=
  (es.find? (fun kv => kv.1 = k)).map (fun kv => kv.2)

/-- `Policy::getString`: fails when the key is absent or not a string. -/
def getStringEntry (es : List (String × PolicyVal)) (k : String) :
    Except Err String :=
  match lookupPolicyVal es k with
  | some (.pStr s) => .ok s
  | _ => .error .configNotFound

/-- `Policy::getDouble`: fails when the key is absent or not a double. -/
def getDoubleEntry (es : List (String × PolicyVal)) (k : String) :
    Except Err ℚ :=
  match lookupPolicyVal es k with
  | some (.pDbl q) => .ok q
  | _ => .error .configNotFound

/-- `Policy::getBool`: fails when the key is absent or not a boolean. -/
def getBoolEntry (es : List (String × PolicyVal)) (k : String) :
    Except Err Bool :=
  match lookupPolicyVal es k with
  | some (.pBool b) => .ok b
  | _ => .error .configNotFound

/-- `Policy::getPolicy`: retrieve a named sub-policy section. -/
def Policy.getPolicy (p : Policy) (k : String) : Except Err PolicyLeaf :=
  match (p.subPolicies.find? (fun kv => kv.1 = k)).map (fun kv => kv.2) with
  | some leaf => .ok leaf
  | none => .error .configNotFound

def PolicyLeaf.getString (p : PolicyLeaf) (k : String) : Except Err String :=
  getStringEntry p.entries k

def PolicyLeaf.getDouble (p : PolicyLeaf) (k : String) : Except Err ℚ :=
  getDoubleEntry p.entries k

def PolicyLeaf.getBool (p : PolicyLeaf) (k : String) : Except Err Bool :=
  getBoolEntry p.entries k

/-- An exposure: a pixel plane, a mask plane of the same shape, and
metadata.  `pix`/`mask` are total functions; only row indices `< rows` and
column indices `< cols` belong to the image, larger row addresses stand for
whatever the accessor reaches when marched past the last row. -/
structure Image where
  cols : Nat
  rows : Nat
  pix : Nat → Nat → ℚ
  mask : Nat → Nat → Nat
  metadata : Metadata

/-- `exposure /= q` (divide every image pixel by the scalar `q`),
source line 261. -/
def divImage (img : Image) (q : ℚ) : Image :=
  { img with pix := fun r c =>
      if r < img.rows ∧ c < img.cols then img.pix r c / q else img.pix r c }

/-- `exposure *= q` (multiply every image pixel by the scalar `q`),
source lines 269 and 278. -/
def mulImage (img : Image) (q : ℚ) : Image :=
  { img with pix := fun r c =>
      if r < img.rows ∧ c < img.cols then img.pix r c * q else img.pix r c }

/-- `chunkExposure /= masterChunkExposure` (element-wise division of the
science image by the master flat), source lines 279 and 281. -/
def divImagePointwise (a b : Image) : Image :=
  { a with pix := fun r c =>
      if r < a.rows ∧ c < a.cols then a.pix r c / b.pix r c else a.pix r c }

/-- Number of samples `n` accumulated by the first statistics pass
(source lines 234-243): one per image pixel. -/
def imageN (img : Image) : Nat := img.rows * img.cols

/-- The `sum` accumulated by the first statistics pass (source lines
237-243): the accessor starts at the origin, so this pass covers exactly the
image region, rows `0..rows-1`, columns `0..cols-1`. -/
def imageSum (img : Image) : ℚ :=
  ((List.range img.rows).map (fun r =>
    ((List.range img.cols).map (fun c => img.pix r c)).sum)).sum

/-- `mu = sum / n` (source line 246). -/
def imageMean (img : Image) : ℚ :=
  imageSum img / (imageN img : ℚ)

/-- The `sumSq` accumulated by the second statistics pass (source lines
248-255).  `masterChunkRowAcc` is NOT re-created or reset after the first
pass: it stands `rows` rows past the origin, so this pass reads row
addresses `rows .. 2*rows-1` (columns restart at 0 because only the copied
column accessor was advanced within each row). -/
def pass2SumSq (img : Image) (mu : ℚ) : ℚ :=
  ((List.range img.rows).map (fun r =>
    ((List.range img.cols).map (fun c =>
      (img.pix (img.rows + r) c - mu) ^ 2)).sum)).sum

/-- The sum of squared deviations over the image region itself — what the
second pass was evidently meant to read (spec §4.2: "standard deviation
σ = sqrt(mean of squared deviations from μ)" over the master flat's
samples).  Kept for comparison with `pass2SumSq`. -/
def inRegionSumSq (img : Image) (mu : ℚ) : ℚ :=
  ((List.range img.rows).map (fun r =>
    ((List.range img.cols).map (fun c =>
      (img.pix r c - mu) ^ 2)).sum)).sum

/-- Normalization proper (source lines 230-261): compute `mu` over the
master flat and divide the exposure by it in place.  The source has no
check that `mu` is nonzero or finite before the division. -/
def normalizeImage (img : Image) : Image :=
  divImage img (imageMean img)

/-- The textual rendering used for the normalization marker key.  Source
line 216 is `std::string normalizeKey = datasetPolicy.getDouble("normalizeKey");`
— it reads the key's value with `getDouble` and binds the result to a
`std::string`, a conversion with no C++ meaning; we model the string the
lookup then uses as a deterministic rendering of that double. -/
def ratKeyString (q : ℚ) : String :=
  toString q.num ++ (if q.den = 1 then "" else "/" ++ toString q.den)

/-- Normalization stage (source lines 209-262).  Reads `normalizeKey` from
the dataset policy with `getDouble` (line 216), then looks the marker up in
`chunkMetadata` — the SCIENCE image's metadata (line 217) — although the
surrounding comments and the trace message speak of the master flat.  If
the marker is found the master flat is left as is; otherwise the two
statistics passes run (`sigma` is computed and discarded, as in the source)
and the master flat is divided by `mu`. -/
def normalizeStage (chunkMetadata : Metadata) (master : Image)
    (datasetPolicy : Policy) : Except Err Image :=
  match getDoubleEntry datasetPolicy.entries "normalizeKey" with
  | .error e => .error e
  | .ok q =>
    let normalizeKey := ratKeyString q
    match findUnique chunkMetadata normalizeKey with
    | some _ => .ok master
    | none =>
      let mu := imageMean master
      let _sigmaSqTimesN := pass2SumSq master mu
      .ok (normalizeImage master)

/-- The amp/ccd identity check (source lines 115-136 for "amp", 138-159
for "ccd").  The source reads the chunk's id and, when the read succeeds,
immediately executes `return ampid;` — an early return out of the whole
sub-stage — so the master's id (lines 125-132) and the mismatch comparison
(lines 134-136) are unreachable; when the id is missing it throws
`NotFound`. -/
def idCheck (chunkMetadata : Metadata) (key : String) : Outcome :=
  match findUnique chunkMetadata key with
  | some v =>
    match castInt v with
    | .ok i => .earlyInt i
    | .error e => .failed e
  | none => .failed .metadataNotFound

/-- Filter check (source lines 168-206).  Reads the chunk's `FILTER` as an
int (`NotFound` when absent, `bad_any_cast` when not an int), then the
master's the same way; then — because `mfilterField` is necessarily non-null
at line 192 — re-casts the master value to int and casts the SAME value to
`std::string` (line 198) and executes `return mfilter;`.  The else branch
(line 201) and the `filter != mfilter` comparison (lines 204-206) are
unreachable; with an int-valued `FILTER` the string cast always throws
`bad_any_cast`. -/
def filterCheck (chunkMetadata masterChunkMetadata : Metadata) : Outcome :=
  match findUnique chunkMetadata "FILTER" with
  | none => .failed .metadataNotFound
  | some fv =>
    match castInt fv with
    | .error e => .failed e
    | .ok _filter =>
      match findUnique masterChunkMetadata "FILTER" with
      | none => .failed .metadataNotFound
      | some mfv =>
        match castInt mfv with
        | .error e => .failed e
        | .ok _mfilter =>
          match castStr mfv with
          | .ok s => .earlyStr s
          | .error e => .failed e

/-- Validation (source lines 89-206): prior-run marker, dimension check,
`flatPolicy`/`chunkType` lookup, amp/ccd identity check, filter check.
Returns `some o` when the sub-stage escapes with outcome `o`, `none` when
control would fall through to normalization.  (The region check's
`if (chunkType = "amp")` uses `=` where `==` was meant — as written it does
not compile; we model the evident comparison.)  No image pixel is read and
nothing is mutated anywhere in this stage. -/
def validateStage (chunk master : Image) (isrPolicy : Policy) :
    Option Outcome :=
  match findUnique chunk.metadata "ISR_FLATCOR" with
  | some _ => some (.failed .alreadyProcessed)
  | none =>
    if chunk.cols ≠ master.cols ∨ chunk.rows ≠ master.rows then
      some (.failed .dimensionMismatch)
    else
      match isrPolicy.getPolicy "flatPolicy" with
      | .error e => some (.failed e)
      | .ok flatPolicy =>
        match flatPolicy.getString "chunkType" with
        | .error e => some (.failed e)
        | .ok chunkType =>
          if chunkType = "amp" then
            some (idCheck chunk.metadata "AMPID")
          else if chunkType = "ccd" then
            some (idCheck chunk.metadata "CCDID")
          else
            some (filterCheck chunk.metadata master.metadata)

/-- Correction stage (source lines 265-282): read `flatFieldScale` and
`stretchFactor`, multiply the master flat by `stretchFactor`
unconditionally, read `sigClip`/`sigClipVal` (unused), then — when
`flatFieldScale` is nonzero (`if (flatFieldScale)` on a double) — multiply
the master flat by it too, and finally divide the science image by the
master flat element-wise.  Returns (error?, science, master) so that the
mutation already performed survives a later lookup failure, as in the
source. -/
def correctStage (chunk master : Image) (flatPolicy : PolicyLeaf) :
    Option Err × Image × Image :=
  match flatPolicy.getDouble "flatFieldScale" with
  | .error e => (some e, chunk, master)
  | .ok flatFieldScale =>
    match flatPolicy.getDouble "stretchFactor" with
    | .error e => (some e, chunk, master)
    | .ok stretchFactor =>
      let master1 := mulImage master stretchFactor
      match flatPolicy.getBool "sigClip" with
      | .error e => (some e, chunk, master1)
      | .ok _sigClip =>
        match flatPolicy.getDouble "sigClipVal" with
        | .error e => (some e, chunk, master1)
        | .ok _sigClipVal =>
          if flatFieldScale ≠ 0 then
            let master2 := mulImage master1 flatFieldScale
            (none, divImagePointwise chunk master2, master2)
          else
            (none, divImagePointwise chunk master1, master1)

/-- The whole sub-stage `flatFieldCorrectChunkExposure` (source lines
72-294): validation, normalization, correction, then the provenance write
`ISR_FLATCOR = "Complete"` into the science image's metadata (lines
284-286).  Result: the outcome together with the final science image and
master flat (both are mutated in place in the source). -/
def flatFieldCorrectChunkExposure (chunk master : Image)
    (isrPolicy datasetPolicy : Policy) : Outcome × Image × Image :=
  match validateStage chunk master isrPolicy with
  | some o => (o, chunk, master)
  | none =>
    match normalizeStage chunk.metadata master datasetPolicy with
    | .error e => (.failed e, chunk, master)
    | .ok master1 =>
      match isrPolicy.getPolicy "flatPolicy" with
      | .error e => (.failed e, chunk, master1)
      | .ok flatPolicy =>
        match correctStage chunk master1 flatPolicy with
        | (some e, chunk1, master2) => (.failed e, chunk1, master2)
        | (none, chunk1, master2) =>
          let chunk2 := { chunk1 with
            metadata := chunk1.metadata ++ [("ISR_FLATCOR", Value.vStr "Complete")] }
          (.completed, chunk2, master2)

/-! ## Concrete fixtures used by witnesses and counterexamples -/

/-- A zero mask plane. -/
def maskZero : Nat → Nat → Nat := fun _ _ => 0

/-- A science image that already carries the `ISR_FLATCOR` marker. -/
def sciMarked : Image :=
  { cols := 1, rows := 1, pix := fun _ _ => 1000, mask := maskZero,
    metadata := [("ISR_FLATCOR", Value.vStr "Complete")] }

/-- A 2×2 master flat of constant value 2 with amp/filter metadata. -/
def flatTwo : Image :=
  { cols := 2, rows := 2, pix := fun _ _ => 2, mask := maskZero,
    metadata := [("AMPID", Value.vInt 1), ("FILTER", Value.vInt 2)] }

/-- An unmarked 1×2 science image (for the dimension-mismatch witness). -/
def sciWide : Image :=
  { cols := 2, rows := 1, pix := fun _ _ => 1000, mask := maskZero,
    metadata := [("AMPID", Value.vInt 1), ("FILTER", Value.vInt 2)] }

/-- A flat-field policy section with `chunkType` = "amp". -/
def flatPolicyAmp : PolicyLeaf :=
  { entries := [("chunkType", PolicyVal.pStr "amp"),
                ("flatFieldScale", PolicyVal.pDbl 0),
                ("stretchFactor", PolicyVal.pDbl 1),
                ("sigClip", PolicyVal.pBool false),
                ("sigClipVal", PolicyVal.pDbl 3)] }

/-- A flat-field policy section with `chunkType` = "raft" (neither "amp"
nor "ccd", so the region-identity check is skipped). -/
def flatPolicyRaft : PolicyLeaf :=
  { entries := [("chunkType", PolicyVal.pStr "raft"),
                ("flatFieldScale", PolicyVal.pDbl 0),
                ("stretchFactor", PolicyVal.pDbl 1),
                ("sigClip", PolicyVal.pBool false),
                ("sigClipVal", PolicyVal.pDbl 3)] }

/-- ISR policy carrying the "amp" flat-field section. -/
def isrPolicyAmp : Policy := { entries := [], subPolicies := [("flatPolicy", flatPolicyAmp)] }

/-- ISR policy carrying the "raft" flat-field section. -/
def isrPolicyRaft : Policy := { entries := [], subPolicies := [("flatPolicy", flatPolicyRaft)] }

/-- Dataset policy whose `normalizeKey` is the double 1 (so the marker key
used by the source's lookup renders as "1"). -/
def datasetPolicyStd : Policy := { entries := [("normalizeKey", PolicyVal.pDbl 1)], subPolicies := [] }

/-- Science chunk for the C3 input: AMPID 1, FILTER 2, 4×4 of 1000. -/
def c3chunk : Image :=
  { cols := 4, rows := 4, pix := fun _ _ => 1000, mask := maskZero,
    metadata := [("AMPID", Value.vInt 1), ("FILTER", Value.vInt 2)] }

/-- Master flat for the C3 input: a DIFFERENT AMPID (2), FILTER 2. -/
def c3master : Image :=
  { cols := 4, rows := 4, pix := fun _ _ => 2, mask := maskZero,
    metadata := [("AMPID", Value.vInt 2), ("FILTER", Value.vInt 2)] }

/-- Science chunk for the C4 input: FILTER 1. -/
def c4chunk : Image :=
  { cols := 4, rows := 4, pix := fun _ _ => 1000, mask := maskZero,
    metadata := [("FILTER", Value.vInt 1)] }

/-- Master flat for the C4 input: a DIFFERENT FILTER (2). -/
def c4master : Image :=
  { cols := 4, rows := 4, pix := fun _ _ => 2, mask := maskZero,
    metadata := [("FILTER", Value.vInt 2)] }

/-- Master flat with the SAME FILTER (1) as `c4chunk`. -/
def c4masterEq : Image :=
  { cols := 4, rows := 4, pix := fun _ _ => 2, mask := maskZero,
    metadata := [("FILTER", Value.vInt 1)] }

/-- Master flat for the C5 input: 1×1 of value 2, whose OWN metadata
carries the normalization marker under the key "1" (the rendering of the
double `normalizeKey` = 1). -/
def c5master : Image :=
  { cols := 1, rows := 1, pix := fun _ _ => 2, mask := maskZero,
    metadata := [("1", Value.vStr "normalized")] }

/-- An entirely-zero 1×1 master flat. -/
def zeroFlat : Image :=
  { cols := 1, rows := 1, pix := fun _ _ => 0, mask := maskZero,
    metadata := [] }

/-! ## Claim theorems -/

/-- C1: whenever the science image's metadata already contains the
`ISR_FLATCOR` marker (with any value), the sub-stage fails with
`AlreadyProcessed` and returns both images exactly as supplied — pixels,
masks, and metadata are the very input records, so nothing was mutated.
(The marker check is the first action of the source, lines 89-95.) -/
theorem c1_already_processed (chunk master : Image) (isrP dsP : Policy)
    (v : Value) (h : findUnique chunk.metadata "ISR_FLATCOR" = some v) :
    flatFieldCorrectChunkExposure chunk master isrP dsP =
      (.failed .alreadyProcessed, chunk, master) := by
  unfold flatFieldCorrectChunkExposure validateStage
  rw [h]

/-- Witness for C1 at a concrete input: the marked science image and the
constant-2 flat. -/
theorem c1_witness :
    findUnique sciMarked.metadata "ISR_FLATCOR" = some (Value.vStr "Complete") ∧
    flatFieldCorrectChunkExposure sciMarked flatTwo isrPolicyAmp datasetPolicyStd =
      (.failed .alreadyProcessed, sciMarked, flatTwo) :=
  ⟨rfl, c1_already_processed sciMarked flatTwo isrPolicyAmp datasetPolicyStd
    (Value.vStr "Complete") rfl⟩

/-- C2 counterexample: a science image that carries the `ISR_FLATCOR`
marker AND has different dimensions from the master flat (1×1 vs 2×2)
fails with `AlreadyProcessed`, not `DimensionMismatch` — the marker check
precedes the size check (source lines 89-108), so the claim "for every
pair with differing counts the stage fails with DimensionMismatch" is
false as stated. -/
theorem c2_counterexample :
    (sciMarked.cols ≠ flatTwo.cols ∧ sciMarked.rows ≠ flatTwo.rows) ∧
    (flatFieldCorrectChunkExposure sciMarked flatTwo isrPolicyAmp datasetPolicyStd).1 =
      .failed .alreadyProcessed ∧
    (flatFieldCorrectChunkExposure sciMarked flatTwo isrPolicyAmp datasetPolicyStd).1 ≠
      .failed .dimensionMismatch := by
  refine ⟨⟨by decide, by decide⟩, rfl, by decide⟩

/-- C2 as amended: for inputs whose science metadata does NOT already
contain the `ISR_FLATCOR` marker, differing column or row counts make the
sub-stage fail with `DimensionMismatch`, returning both images exactly as
supplied.  The outcome is the same for every pixel and mask function
(`chunk.pix`, `chunk.mask`, `master.pix`, `master.mask` are universally
quantified and never consulted), which is the claim's "before any pixel
value of either image is read or written". -/
theorem c2_dimension_mismatch (chunk master : Image) (isrP dsP : Policy)
    (hm : findUnique chunk.metadata "ISR_FLATCOR" = none)
    (hd : chunk.cols ≠ master.cols ∨ chunk.rows ≠ master.rows) :
    flatFieldCorrectChunkExposure chunk master isrP dsP =
      (.failed .dimensionMismatch, chunk, master) := by
  unfold flatFieldCorrectChunkExposure validateStage
  rw [hm]
  simp only [if_pos hd]

/-- Witness for C2 (amended) at a concrete input: unmarked 1×2 science
image against the 2×2 flat. -/
theorem c2_witness :
    findUnique sciWide.metadata "ISR_FLATCOR" = none ∧
    (sciWide.rows ≠ flatTwo.rows) ∧
    flatFieldCorrectChunkExposure sciWide flatTwo isrPolicyAmp datasetPolicyStd =
      (.failed .dimensionMismatch, sciWide, flatTwo) :=
  ⟨rfl, by decide,
   c2_dimension_mismatch sciWide flatTwo isrPolicyAmp datasetPolicyStd rfl
     (Or.inr (by decide))⟩

/-- C3 at its failing input (code bug): `chunkType` = "amp", equal sizes,
chunk AMPID = 1, master AMPID = 2.  The claim (and the source's own
documentation, which promises `RangeError` when the images derive from
different pixels) requires `RegionMismatch`; instead the source executes
`return ampid;` as soon as the chunk's AMPID is read (line 120), so the
call ends with the early return of 1 and the master's AMPID is never
compared. -/
theorem c3_amp_early_exit :
    findUnique c3chunk.metadata "AMPID" ≠ findUnique c3master.metadata "AMPID" ∧
    (flatFieldCorrectChunkExposure c3chunk c3master isrPolicyAmp datasetPolicyStd).1 =
      .earlyInt 1 ∧
    (flatFieldCorrectChunkExposure c3chunk c3master isrPolicyAmp datasetPolicyStd).1 ≠
      .failed .regionMismatch := by
  refine ⟨by decide, rfl, by decide⟩

/-- C4 at its failing inputs (code bug): equal sizes, region check skipped
(`chunkType` = "raft").  With differing integer `FILTER` values (1 vs 2)
the claim (and the source's documentation) requires `FilterMismatch`, and
with equal values it requires execution to continue to normalization; in
both cases the source instead throws `bad_any_cast` at line 198, where the
master's int-valued `FILTER` is re-cast to `std::string`, so the
comparison at line 204 is unreachable. -/
theorem c4_filter_cast_throws :
    (flatFieldCorrectChunkExposure c4chunk c4master isrPolicyRaft datasetPolicyStd).1 =
      .failed .badAnyCast ∧
    (flatFieldCorrectChunkExposure c4chunk c4master isrPolicyRaft datasetPolicyStd).1 ≠
      .failed .filterMismatch ∧
    (flatFieldCorrectChunkExposure c4chunk c4masterEq isrPolicyRaft datasetPolicyStd).1 =
      .failed .badAnyCast := by
  refine ⟨rfl, by decide, rfl⟩

/-- The 1×1 constant-2 flat has mean 2. -/
theorem imageMean_c5master : imageMean c5master = 2 := by
  norm_num [imageMean, imageSum, imageN, c5master, List.range_succ]

/-- C5 at its failing input (code bug): the normalization stage reads
`normalizeKey` with `getDouble` (source line 216) — so a string-valued
`normalizeKey`, the type the spec requires and the `std::string` variable
in the source expects, makes the lookup fail — and searches for the marker
in the SCIENCE image's metadata (`chunkMetadata`, line 217), not the master
flat's, although the surrounding comment and trace message speak of the
master flat.  Concretely: the master flat `c5master` itself carries the
marker (under key "1", the rendering of the double 1), the science metadata
is empty, and normalization nevertheless runs and rescales the flat's pixel
from 2 to 1. -/
theorem c5_marker_wrong_store :
    getDoubleEntry [("normalizeKey", PolicyVal.pStr "ISR_NF")] "normalizeKey" =
      .error .configNotFound ∧
    findUnique c5master.metadata (ratKeyString 1) = some (Value.vStr "normalized") ∧
    normalizeStage [] c5master datasetPolicyStd = .ok (normalizeImage c5master) ∧
    (normalizeImage c5master).pix 0 0 = 1 := by
  refine ⟨rfl, rfl, rfl, ?_⟩
  have h : (normalizeImage c5master).pix 0 0 = c5master.pix 0 0 / imageMean c5master := by
    simp [normalizeImage, divImage, c5master]
  rw [h, imageMean_c5master]
  norm_num [c5master]

/-- Sum of a scalar-divided map over `List.range`. -/
theorem sum_map_range_div (n : Nat) (f : Nat → ℚ) (q : ℚ) :
    ((List.range n).map (fun i => f i / q)).sum =
      ((List.range n).map f).sum / q := by
  induction n with
  | zero => simp
  | succ m ih =>
    rw [List.range_succ]
    simp [ih, add_div]

/-- Dividing the image by a scalar divides the first-pass sum by it. -/
theorem imageSum_divImage (img : Image) (q : ℚ) :
    imageSum (divImage img q) = imageSum img / q := by
  unfold imageSum divImage
  simp only
  have hrow : ∀ r ∈ List.range img.rows,
      ((List.range img.cols).map (fun c =>
        if r < img.rows ∧ c < img.cols then img.pix r c / q else img.pix r c)).sum =
      ((List.range img.cols).map (fun c => img.pix r c / q)).sum := by
    intro r hr
    have hr' : r < img.rows := List.mem_range.mp hr
    refine congrArg List.sum (List.map_congr_left ?_)
    intro c hc
    have hc' : c < img.cols := List.mem_range.mp hc
    simp [hr', hc']
  calc ((List.range img.rows).map (fun r =>
          ((List.range img.cols).map (fun c =>
            if r < img.rows ∧ c < img.cols then img.pix r c / q
            else img.pix r c)).sum)).sum
      = ((List.range img.rows).map (fun r =>
          ((List.range img.cols).map (fun c => img.pix r c / q)).sum)).sum := by
        exact congrArg List.sum (List.map_congr_left hrow)
    _ = ((List.range img.rows).map (fun r =>
          ((List.range img.cols).map (fun c => img.pix r c)).sum / q)).sum := by
        refine congrArg List.sum (List.map_congr_left ?_)
        intro r _
        exact sum_map_range_div img.cols (fun c => img.pix r c) q
    _ = ((List.range img.rows).map (fun r =>
          ((List.range img.cols).map (fun c => img.pix r c)).sum)).sum / q :=
        sum_map_range_div img.rows _ q

/-- `divImage` keeps the shape, mask and metadata. -/
theorem divImage_shape (img : Image) (q : ℚ) :
    (divImage img q).rows = img.rows ∧ (divImage img q).cols = img.cols ∧
    (divImage img q).mask = img.mask ∧ (divImage img q).metadata = img.metadata :=
  ⟨rfl, rfl, rfl, rfl⟩

/-- Dividing an image by 1 is the identity. -/
theorem divImage_one (img : Image) : divImage img 1 = img := by
  unfold divImage
  cases img with
  | mk cols rows pix mask metadata =>
    simp only [Image.mk.injEq, true_and, and_true]
    funext r c
    by_cases h : r < rows ∧ c < cols <;> simp [h]

/-- Mean of the scalar-divided image. -/
theorem imageMean_divImage (img : Image) (q : ℚ) :
    imageMean (divImage img q) = imageMean img / q := by
  unfold imageMean
  rw [imageSum_divImage]
  show imageSum img / q / (imageN (divImage img q) : ℚ) = _
  have hn : imageN (divImage img q) = imageN img := rfl
  rw [hn, div_right_comm]

/-- C6: when normalization runs it divides every image sample of the
master flat by the arithmetic mean `mu` of all its samples (an unweighted
pass over every pixel, the mask never consulted — `Image.mask` plays no
part in `imageSum`/`normalizeImage`); provided the image is non-empty and
`mu ≠ 0`, the normalized flat has mean exactly 1, and in the exact
arithmetic of the model ("up to rounding") running the normalization
computation a second time changes nothing: it divides by the new mean 1. -/
theorem c6_normalize_unit_mean (img : Image)
    (hn : imageN img ≠ 0) (hmu : imageMean img ≠ 0) :
    (∀ r, r < img.rows → ∀ c, c < img.cols →
      (normalizeImage img).pix r c = img.pix r c / imageMean img) ∧
    imageMean (normalizeImage img) = 1 ∧
    normalizeImage (normalizeImage img) = normalizeImage img := by
  have hmean : imageMean (normalizeImage img) = 1 := by
    unfold normalizeImage
    rw [imageMean_divImage, div_self hmu]
  refine ⟨?_, hmean, ?_⟩
  · intro r hr c hc
    unfold normalizeImage divImage
    simp [hr, hc]
  · show divImage (normalizeImage img) (imageMean (normalizeImage img)) =
      normalizeImage img
    rw [hmean, divImage_one]

/-- Witness for C6 at a concrete input: the 1×1 flat of value 2 (mean 2)
normalizes to the unit-mean flat, idempotently. -/
theorem c6_witness :
    imageN c5master ≠ 0 ∧ imageMean c5master ≠ 0 ∧
    ((∀ r, r < c5master.rows → ∀ c, c < c5master.cols →
        (normalizeImage c5master).pix r c = c5master.pix r c / imageMean c5master) ∧
      imageMean (normalizeImage c5master) = 1 ∧
      normalizeImage (normalizeImage c5master) = normalizeImage c5master) :=
  ⟨by decide, by simp [imageMean_c5master],
   c6_normalize_unit_mean c5master (by decide) (by simp [imageMean_c5master])⟩

/-- C7 at its failing input (code bug): the entirely-zero 1×1 master flat
has mean 0, yet the normalization stage raises no error at all — there is
no `DegenerateFlat` (or any) guard between computing `mu` (source line 246)
and the division `masterChunkExposure /= mu` (line 261), so the source
divides by zero (producing NaN pixels in IEEE arithmetic) instead of
failing as the claim requires. -/
theorem c7_zero_flat_divides :
    imageMean zeroFlat = 0 ∧
    normalizeStage [] zeroFlat datasetPolicyStd = .ok (normalizeImage zeroFlat) := by
  refine ⟨?_, rfl⟩
  norm_num [imageMean, imageSum, imageN, zeroFlat, List.range_succ]

/-- C8: in the correction stage, whenever the four policy lookups succeed,
the master flat is multiplied by `stretchFactor` unconditionally, is
additionally multiplied by `flatFieldScale` exactly when that value is
nonzero (`if (flatFieldScale)` on a double, source line 277), and the
science image is then divided element-wise by the resulting master flat;
both results are returned in place of the inputs. -/
theorem c8_correct_stage (chunk master : Image) (fp : PolicyLeaf)
    (fS st : ℚ) (sC : Bool) (sCV : ℚ)
    (h1 : fp.getDouble "flatFieldScale" = .ok fS)
    (h2 : fp.getDouble "stretchFactor" = .ok st)
    (h3 : fp.getBool "sigClip" = .ok sC)
    (h4 : fp.getDouble "sigClipVal" = .ok sCV) :
    correctStage chunk master fp =
      (none,
       divImagePointwise chunk
         (if fS ≠ 0 then mulImage (mulImage master st) fS else mulImage master st),
       if fS ≠ 0 then mulImage (mulImage master st) fS else mulImage master st) := by
  unfold correctStage
  rw [h1, h2, h3, h4]
  by_cases h : fS = 0
  · simp [h]
  · simp [h]

/-- 1×1 science image of constant value 1000 (C8's end-to-end input). -/
def w8chunk : Image :=
  { cols := 1, rows := 1, pix := fun _ _ => 1000, mask := maskZero, metadata := [] }

/-- 1×1 master flat normalized to constant 1 (C8's end-to-end input). -/
def w8master : Image :=
  { cols := 1, rows := 1, pix := fun _ _ => 1, mask := maskZero, metadata := [] }

/-- Witness for C8 at the spec's end-to-end input: `stretchFactor` = 1,
`flatFieldScale` = 0 (so no extra scaling), unit master flat, constant-1000
science image; the corrected science pixel is 1000. -/
theorem c8_witness :
    flatPolicyAmp.getDouble "flatFieldScale" = .ok 0 ∧
    flatPolicyAmp.getDouble "stretchFactor" = .ok 1 ∧
    flatPolicyAmp.getBool "sigClip" = .ok false ∧
    flatPolicyAmp.getDouble "sigClipVal" = .ok 3 ∧
    correctStage w8chunk w8master flatPolicyAmp =
      (none,
       divImagePointwise w8chunk
         (if (0 : ℚ) ≠ 0 then mulImage (mulImage w8master 1) 0 else mulImage w8master 1),
       if (0 : ℚ) ≠ 0 then mulImage (mulImage w8master 1) 0 else mulImage w8master 1) ∧
    (divImagePointwise w8chunk (mulImage w8master 1)).pix 0 0 = 1000 :=
  ⟨rfl, rfl, rfl, rfl,
   c8_correct_stage w8chunk w8master flatPolicyAmp 0 1 false 3 rfl rfl rfl rfl,
   by norm_num [divImagePointwise, mulImage, w8chunk, w8master]⟩

/-- The science image returned by the correction stage keeps the science
metadata untouched, on every path (lookup failures included). -/
theorem correctStage_sci_metadata (c m : Image) (fp : PolicyLeaf) :
    (correctStage c m fp).2.1.metadata = c.metadata := by
  unfold correctStage
  repeat' split
  all_goals rfl

/-- The amp/ccd identity check never ends in normal completion: every
branch is an early return or a throw. -/
theorem idCheck_ne_completed (md : Metadata) (k : String) :
    idCheck md k ≠ .completed := by
  unfold idCheck
  repeat' split
  all_goals simp

/-- The filter check never ends in normal completion: every branch is an
early return or a throw. -/
theorem filterCheck_ne_completed (cm mm : Metadata) :
    filterCheck cm mm ≠ .completed := by
  unfold filterCheck
  repeat' split
  all_goals simp

/-- Validation never escapes with the `completed` outcome. -/
theorem validateStage_ne_completed (c m : Image) (p : Policy) (o : Outcome)
    (h : validateStage c m p = some o) : o ≠ .completed := by
  intro ho
  subst ho
  unfold validateStage at h
  repeat' split at h
  all_goals rw [Option.some.injEq] at h
  all_goals first
    | exact idCheck_ne_completed _ _ h
    | exact filterCheck_ne_completed _ _ h
    | exact Outcome.noConfusion h

/-- C9: the science image's metadata after the call equals the input
metadata with the single entry `ISR_FLATCOR = "Complete"` appended exactly
when the outcome is normal completion, and unchanged on every other
outcome — failures and early returns write nothing, and the provenance
entry of a completing call is written exactly once (source lines 284-286,
guarded at entry by the marker check of lines 89-95). -/
theorem c9_provenance (chunk master : Image) (isrP dsP : Policy) :
    (flatFieldCorrectChunkExposure chunk master isrP dsP).2.1.metadata =
      chunk.metadata ++
        (if (flatFieldCorrectChunkExposure chunk master isrP dsP).1 = .completed
          then [("ISR_FLATCOR", Value.vStr "Complete")] else []) := by
  unfold flatFieldCorrectChunkExposure
  cases hv : validateStage chunk master isrP with
  | some o =>
    have ho : o ≠ .completed := validateStage_ne_completed chunk master isrP o hv
    simp [ho]
  | none =>
    cases hn : normalizeStage chunk.metadata master dsP with
    | error e => simp
    | ok m1 =>
      cases hp : isrP.getPolicy "flatPolicy" with
      | error e => simp
      | ok fp =>
        rcases hcs : correctStage chunk m1 fp with ⟨oe, c1, m2⟩
        have hmeta : c1.metadata = chunk.metadata := by
          have hh := correctStage_sci_metadata chunk m1 fp
          rw [hcs] at hh
          exact hh
        cases oe with
        | some e => simp [hcs, hmeta]
        | none => simp [hcs, hmeta]

/-- A 1×1 flat of value 5 sitting in ambient memory that also reads 5:
the pixel function is constant everywhere. -/
def constFlat : Image :=
  { cols := 1, rows := 1, pix := fun _ _ => 5, mask := maskZero, metadata := [] }

/-- C10 counterexample: the claim's "for every master flat the computed σ
is not the standard deviation of the image's sample values" is false — for
`constFlat`, whose ambient memory holds the same value as the image, the
second pass's sum of squared deviations coincides with the in-region one
(both are 0), so `sigma = sqrt(sumSq/n)` equals the image's standard
deviation exactly. -/
theorem c10_counterexample :
    pass2SumSq constFlat (imageMean constFlat) =
      inRegionSumSq constFlat (imageMean constFlat) ∧
    pass2SumSq constFlat (imageMean constFlat) = 0 := by
  constructor <;>
    norm_num [pass2SumSq, inRegionSumSq, imageMean, imageSum, imageN,
      constFlat, List.range_succ]

/-- C10 as amended: the row accessor is not reset between the mean pass
and the deviation pass, so the second pass reads row addresses
`rows .. 2*rows-1` — all outside the rows `0 .. rows-1` traversed by the
first pass — and `sumSq` (hence σ) is a function of those out-of-region
values only: it is unchanged by any change to the image's own pixels
(rows `< rows`), so it need not be the standard deviation of the image's
samples.  Formally, two images of the same shape that agree on rows
`rows .. 2*rows-1` have the same `sumSq`, whatever their image pixels. -/
theorem c10_pass2_reads_out_of_region (a b : Image) (hr : a.rows = b.rows)
    (hc : a.cols = b.cols) (mu : ℚ)
    (h : ∀ r, r < a.rows → ∀ c, c < a.cols →
      a.pix (a.rows + r) c = b.pix (a.rows + r) c) :
    pass2SumSq a mu = pass2SumSq b mu := by
  unfold pass2SumSq
  rw [← hr, ← hc]
  refine congrArg List.sum (List.map_congr_left ?_)
  intro r hrm
  refine congrArg List.sum (List.map_congr_left ?_)
  intro c hcm
  rw [h r (List.mem_range.mp hrm) c (List.mem_range.mp hcm)]

/-- 1×1 image whose image pixel reads 100 and whose ambient rows read 7. -/
def pass2A : Image :=
  { cols := 1, rows := 1, pix := fun r _ => if r = 0 then 100 else 7,
    mask := maskZero, metadata := [] }

/-- Like `pass2A` but with image pixel 200: same ambient memory, different
image content. -/
def pass2B : Image :=
  { cols := 1, rows := 1, pix := fun r _ => if r = 0 then 200 else 7,
    mask := maskZero, metadata := [] }

/-- Witness for C10 (amended): `pass2A` and `pass2B` differ at their only
image pixel yet give the SAME second-pass `sumSq`, because that pass only
reads the ambient row beyond the image. -/
theorem c10_witness :
    pass2A.rows = pass2B.rows ∧ pass2A.cols = pass2B.cols ∧
    (∀ r, r < pass2A.rows → ∀ c, c < pass2A.cols →
      pass2A.pix (pass2A.rows + r) c = pass2B.pix (pass2A.rows + r) c) ∧
    pass2A.pix 0 0 ≠ pass2B.pix 0 0 ∧
    pass2SumSq pass2A 0 = pass2SumSq pass2B 0 :=
  ⟨rfl, rfl, by decide, by decide,
   c10_pass2_reads_out_of_region pass2A pass2B rfl rfl 0 (by decide)⟩
